import Mathlib

/-!
A verification development for the graang repository (Datadog → Grafana
dashboard converter).  The Python source is shallowly embedded: JSON-ish
dictionaries become structures with `Option` fields, the dynamic `requests`
union becomes a tagged inductive, machine state (panel ids, the grid cursor)
is threaded explicitly, and the regex-based lexical query rewrites are
modelled as executable functions on `List Char` (the regexes used by the
source are literal-token and fixed-shape patterns, so they have exact
recursive models; `\w` is modelled as ASCII alphanumeric or underscore).

Sources embedded: `src/datadog_to_grafana.py` (class
`DatadogToGrafanaConverter`, its `DatadogDashboard.process_widgets` helper)
and `src/src/graang/utils.py` (`convert_datadog_query_to_prometheus`,
`GridLayoutCalculator`).
-/

namespace Graang

/-! ### Characters and small helpers -/

/-- The `{` character, as used by the tag-filter rewrite. -/
def lbrace : Char := Char.ofNat 123

/-- The `}` character. -/
def rbrace : Char := Char.ofNat 125

/-- Python's `\w` character class, restricted to ASCII as used by the repo's
queries: letters, digits and underscore. -/
def isWordChar (c : Char) : Bool := c.isAlphanum || c = '_'

/-- Does `p` occur at the head of `s`?  (Plain literal prefix test.) -/
def headMatch : List Char → List Char → Bool
  | [], _ => true
  | _ :: _, [] => false
  | p :: ps, c :: cs => p = c && headMatch ps cs

/-! ### `re.sub` with a literal pattern

`re.sub(r'avg:', 'avg_over_time(', query)` and the three analogous calls use
patterns with no metacharacters: they replace every (leftmost,
non-overlapping) occurrence of a literal token.  The recursion is written
with a fuel argument equal to the input length so that it is structurally
recursive and kernel-evaluable; each step consumes at least one character
because the patterns used are non-empty, so the fuel never runs out. -/

def reSubLitAux (pat rep : List Char) : Nat → List Char → List Char
  | 0, s => s
  | _ + 1, [] => []
  | n + 1, c :: cs =>
    if headMatch pat (c :: cs) then
      rep ++ reSubLitAux pat rep n ((c :: cs).drop pat.length)
    else
      c :: reSubLitAux pat rep n cs

/-- Model of `re.sub` with a literal (metacharacter-free) pattern. -/
def reSubLit (pat rep s : List Char) : List Char :=
  reSubLitAux pat rep s.length s

/-! ### The tag-filter rewrite `re.sub(r'\{([^}]+)\}', r'{{\1}}', query)`

A brace-delimited run of one or more non-`}` characters is doubled:
`{content}` becomes `{{content}}`, content preserved verbatim.  Leftmost
matching, scanning resumes after the consumed match. -/

def reSubBracesAux : Nat → List Char → List Char
  | 0, s => s
  | _ + 1, [] => []
  | n + 1, c :: cs =>
    if c = lbrace then
      let content := cs.takeWhile (fun d => d ≠ rbrace)
      if content.length ≥ 1 ∧ (cs.drop content.length).headD ' ' = rbrace then
        lbrace :: lbrace :: content ++ rbrace :: rbrace ::
          reSubBracesAux n (cs.drop (content.length + 1))
      else
        c :: reSubBracesAux n cs
    else
      c :: reSubBracesAux n cs

def reSubBraces (s : List Char) : List Char :=
  reSubBracesAux s.length s

/-! ### `re.search(r'\[\w+\]', query)`

True iff the string contains `[`, then one or more word characters, then
`]`.  Because `]` is not a word character, the greedy scan below is exact. -/

def hasRangeToken : Nat → List Char → Bool
  | 0, _ => false
  | _ + 1, [] => false
  | n + 1, c :: cs =>
    if c = '[' then
      let w := cs.takeWhile isWordChar
      if w.length ≥ 1 ∧ (cs.drop w.length).headD ' ' = ']' then true
      else hasRangeToken n cs
    else hasRangeToken n cs

/-! ### The query translator

`convert_datadog_query_to_prometheus` (identical in
`src/src/graang/utils.py` lines 7–33 and as the private method in
`src/datadog_to_grafana.py` lines 403–429). -/

/-- Step 3 of the translator: append the deficit of closing parentheses if
opens exceed closes (excess closes are left as they are). -/
def balanceParens (q : List Char) : List Char :=
  let opens := q.count '('
  let closes := q.count ')'
  if opens > closes then q ++ List.replicate (opens - closes) ')' else q

/-- Step 4 of the translator: append the default range token when the
string has none. -/
def ensureRange (q : List Char) : List Char :=
  if hasRangeToken q.length q then q else q ++ "[5m]".data

def translateQueryChars (q : List Char) : List Char :=
  -- step 1: aggregator token replacements, in source order
  let q := reSubLit "avg:".data "avg_over_time(".data q
  let q := reSubLit "sum:".data "sum(".data q
  let q := reSubLit "min:".data "min_over_time(".data q
  let q := reSubLit "max:".data "max_over_time(".data q
  -- step 2: tag filters are doubled
  let q := reSubBraces q
  -- steps 3 and 4
  ensureRange (balanceParens q)

/-- The translator on `String`, keeping the source's name. -/
def convert_datadog_query_to_prometheus (q : String) : String :=
  String.mk (translateQueryChars q.data)

/-! ### Data model: requests and widgets

A JSON dictionary field that may be absent is an `Option`.  The dynamic
`requests` union (list / dict-of-lists / dict-of-dicts, anything else
ignored) is the tagged inductive `Requests`; a list entry that is `None`
(or otherwise falsy) is `none`. -/

/-- An element of a request's `queries` array; the conversion code reads
only its `query` key. -/
structure QueryObj where
  query : Option String
deriving DecidableEq, Repr

/-- One Datadog request dictionary, with the keys the conversion reads. -/
structure RequestSpec where
  q : Option String
  query : Option String
  queries : Option (List QueryObj)
  display_name : Option String
deriving DecidableEq, Repr

/-- A value of the dict-shaped `requests` mapping: a list of requests, a
single request dictionary, or something the code ignores. -/
inductive RVal : Type where
  | many (rs : List (Option RequestSpec))
  | single (r : RequestSpec)
  | other
deriving DecidableEq, Repr

/-- The `requests` field union. -/
inductive Requests : Type where
  | rlist (rs : List (Option RequestSpec))
  | rdict (entries : List (String × RVal))
  | other
deriving DecidableEq, Repr

/-- A widget's `layout` dictionary: `width` / `height` keys, each possibly
absent. -/
structure LayoutSpec where
  width : Option Int
  height : Option Int
deriving DecidableEq, Repr

/-- A source widget.  `noDef` is a widget dictionary without a
`definition` key; `withDef` carries the definition's keys that the engine
reads (`type`, `title`, `viz`, `content`, `requests`, `widgets`), plus the
widget-level `title` and `layout`. -/
inductive SWidget : Type where
  | noDef (wtitle : Option String) (layout : Option LayoutSpec)
  | withDef (wtitle : Option String) (layout : Option LayoutSpec)
      (dtype : Option String) (dtitle : Option String) (viz : Option String)
      (content : Option String) (reqs : Option Requests)
      (children : Option (List SWidget))

/-- The lookup `widget.get('definition', {}).get('type', 'unknown')`. -/
def wtypeOf : SWidget → String
  | .noDef _ _ => "unknown"
  | .withDef _ _ dt _ _ _ _ _ => dt.getD "unknown"

/-- The widget-level `title` key. -/
def wtitleOf : SWidget → Option String
  | .noDef t _ => t
  | .withDef t _ _ _ _ _ _ _ => t

/-- The `layout` key. -/
def layoutOf : SWidget → Option LayoutSpec
  | .noDef _ l => l
  | .withDef _ l _ _ _ _ _ _ => l

/-- The test `'layout' in widget and 'width' in widget['layout'] and 'height' in
widget['layout']`: the explicit size hint, available only when the layout
dictionary and both of its keys are present. -/
def layoutHintOf (w : SWidget) : Option (Int × Int) :=
  match layoutOf w with
  | none => none
  | some l =>
    match l.width, l.height with
    | some wp, some hp => some (wp, hp)
    | _, _ => none

/-! ### Targets -/

/-- A Grafana target as built by `_build_target` (fields `expr`, `refId`,
`instant`, `legendFormat`) or by `_convert_event_stream` (only `expr` and
`refId`): the keys a given code path does not set are `none`. -/
structure Target where
  expr : String
  refId : String
  instant : Option Bool
  legendFormat : Option String
deriving DecidableEq, Repr

/-- Embeds `DatadogToGrafanaConverter._build_target` (source lines 373–401).
A falsy request (`None` / `{}`) or an empty extracted query yields no
target; the `q` / `query` / first-of-`queries` priority chain picks the
query text. -/
def build_target (request : Option RequestSpec) (ref_id : String) : Option Target :=
  match request with
  | none => none
  | some r =>
    let query : String :=
      match r.q with
      | some s => s
      | none =>
        match r.query with
        | some s => s
        | none =>
          match r.queries with
          | some (qo :: _) => qo.query.getD ""
          | _ => ""
    if query = "" then none
    else some { expr := convert_datadog_query_to_prometheus query
                refId := ref_id
                instant := some false
                legendFormat := some (r.display_name.getD "") }

/-- Embeds `DatadogToGrafanaConverter._convert_requests_to_targets` (source lines
340–371): dict values that are lists get `{key}_{i}` reference ids, single
dict values the bare key, and list entries the positional `A{i}` scheme. -/
def convert_requests_to_targets (requests : Requests) : List Target :=
  match requests with
  | .rdict entries =>
    (entries.map (fun kv =>
      match kv.2 with
      | .many rs =>
        (rs.enum.map (fun p => (build_target p.2 (kv.1 ++ "_" ++ toString p.1)).toList)).flatten
      | .single r => (build_target (some r) kv.1).toList
      | .other => [])).flatten
  | .rlist rs =>
    (rs.enum.map (fun p => (build_target p.2 ("A" ++ toString p.1)).toList)).flatten
  | .other => []

/-! ### Grid layout

Both positioners own cursor state `{x, y, current_row_height}` with the
grid width fixed at 24.  Python's `round((percent / 100) * 24)` is modelled
as exact half-to-even rounding of the rational `percent * 24 / 100` (the
float detour of the source agrees with this on the integer percentages the
repository exercises, and every theorem below that depends on the rounded
value clamps it first). -/

/-- Python 3 `round` of `a / b` for `b > 0`: nearest integer, ties to
even.  `/` and `%` here are Euclidean, so `a % b ∈ [0, b)`. -/
def pyRoundDiv (a b : Int) : Int :=
  let quot := a / b
  let rem := a % b
  if 2 * rem < b then quot
  else if 2 * rem > b then quot + 1
  else if quot % 2 = 0 then quot else quot + 1

/-- An output grid rectangle `{x, y, w, h}`. -/
structure GridPos where
  x : Int
  y : Int
  w : Int
  h : Int
deriving DecidableEq, Repr

/-- Packer cursor state: `x`, `y` and `current_row_height`. -/
structure GridState where
  x : Int
  y : Int
  rowH : Int
deriving DecidableEq, Repr

/-- The freshly-initialized cursor `{x: 0, y: 0, current_row_height: 0}`. -/
def GridState.init : GridState := ⟨0, 0, 0⟩

/-- The `max(1, min(24, round(width_percent / 100 * 24)))` width and
`max(4, min(36, round(height_percent / 100 * 24)))` height computed from an
explicit layout hint. -/
def hintSize (wp hp : Int) : Int × Int :=
  (max 1 (min 24 (pyRoundDiv (wp * 24) 100)),
   max 4 (min 36 (pyRoundDiv (hp * 24) 100)))

/-- The row-packing tail shared verbatim by both positioners: wrap when
the panel would overflow the 24-unit row, emit at the cursor, advance the
cursor and the row height. -/
def packAdvance (st : GridState) (size : Int × Int) : GridPos × GridState :=
  let width := size.1
  let height := size.2
  let st1 : GridState := if st.x + width > 24 then ⟨0, st.y + st.rowH, 0⟩ else st
  (⟨st1.x, st1.y, width, height⟩, ⟨st1.x + width, st1.y, max st1.rowH height⟩)

/-- The size chosen by the converter's positioner: the layout hint when
present, the fixed `12 × 8` default otherwise. -/
def convSize (w : SWidget) : Int × Int :=
  match layoutHintOf w with
  | some (wp, hp) => hintSize wp hp
  | none => (12, 8)

/-- Embeds `DatadogToGrafanaConverter._get_next_grid_position` (source lines
189–223). -/
def get_next_grid_position (st : GridState) (w : SWidget) : GridPos × GridState :=
  packAdvance st (convSize w)

/-- The widget kinds `GridLayoutCalculator` treats as primary (full row
when they start a row). -/
def primaryKinds : List String :=
  ["timeseries", "query_value", "toplist", "heatmap", "hostmap", "event_stream"]

/-- The size chosen by `GridLayoutCalculator`: the layout hint when
present; otherwise a primary-kind widget takes the full 24-unit row when
the cursor is at `x == 0` and half a row otherwise, and any other kind the
`12 × 8` default. -/
def calcSize (cursorX : Int) (w : SWidget) : Int × Int :=
  match layoutHintOf w with
  | some (wp, hp) => hintSize wp hp
  | none =>
    if wtypeOf w ∈ primaryKinds then
      (if cursorX = 0 then 24 else 12, 8)
    else (12, 8)

/-- Embeds `GridLayoutCalculator.get_next_grid_position`
(`src/src/graang/utils.py` lines 117–163). -/
def GridLayoutCalculator.get_next_grid_position (st : GridState) (w : SWidget) :
    GridPos × GridState :=
  packAdvance st (calcSize st.x w)

/-- All positions emitted by a sequence of converter-positioner calls. -/
def runConvPositions : GridState → List SWidget → List GridPos
  | _, [] => []
  | st, w :: rest =>
    let r := get_next_grid_position st w
    r.1 :: runConvPositions r.2 rest

/-- All positions emitted by a sequence of `GridLayoutCalculator` calls. -/
def runCalcPositions : GridState → List SWidget → List GridPos
  | _, [] => []
  | st, w :: rest =>
    let r := GridLayoutCalculator.get_next_grid_position st w
    r.1 :: runCalcPositions r.2 rest

/-- The GridPosition invariant of the specification. -/
def gridPosOk (p : GridPos) : Bool :=
  decide (0 ≤ p.x ∧ 0 ≤ p.y ∧ 1 ≤ p.w ∧ 1 ≤ p.h ∧ p.x + p.w ≤ 24)

/-! ### Widget tree walker

`DatadogDashboard.process_widgets` appends, in traversal order, every
widget found inside a group to the shared `nested_widgets` list; the
mutation is modelled with an explicit accumulator.  A widget whose
definition says `group` and has a `widgets` key is recursed into (and not
itself collected); any other widget carrying a definition is collected
when the traversal is inside a group. -/

mutual

def process_widgets_acc : Bool → List SWidget → List SWidget → List SWidget
  | _, acc, [] => acc
  | isNested, acc, w :: rest =>
    process_widgets_acc isNested (process_one_acc isNested acc w) rest

def process_one_acc : Bool → List SWidget → SWidget → List SWidget
  | _, acc, .noDef _ _ => acc
  | isNested, acc, .withDef wt ly dt dti vz ct rq ch =>
    match ch with
    | some ws =>
      if dt.getD "unknown" = "group" then process_widgets_acc true acc ws
      else if isNested then acc ++ [SWidget.withDef wt ly dt dti vz ct rq (some ws)]
      else acc
    | none =>
      if isNested then acc ++ [SWidget.withDef wt ly dt dti vz ct rq none]
      else acc

end

/-- The filter `'definition' in widget and widget['definition'].get('type') != 'group'`:
the filter `_flatten_widgets` applies to the top-level widgets. -/
def isTopLevelLeaf : SWidget → Bool
  | .noDef _ _ => false
  | .withDef _ _ dt _ _ _ _ _ => !(dt = some "group")

/-- Embeds `DatadogToGrafanaConverter._flatten_widgets` (source lines 126–138):
the top-level non-group widgets, followed by the dashboard's
`nested_widgets` list. -/
def flatten_widgets (widgets nested_widgets : List SWidget) : List SWidget :=
  widgets.filter isTopLevelLeaf ++ nested_widgets

/-- The converter pipeline's flattening of a widget tree: `_flatten_widgets`
applied to the `nested_widgets` that `process_widgets` collected from the
same tree. -/
def flattenPipeline (widgets : List SWidget) : List SWidget :=
  flatten_widgets widgets (process_widgets_acc false [] widgets)

/-! Specification-side walkers, for comparison with the code. -/

mutual

/-- Modelled from the spec (§4.1 `flatten`): the leaf (non-group) widgets in
document order, depth-first, a group's descendants appearing at the group's
position, nested groups inlined; widgets without a definition are skipped. -/
def inlineLeaves : List SWidget → List SWidget
  | [] => []
  | w :: rest => inlineLeavesOne w ++ inlineLeaves rest

/-- Modelled from the spec: one widget's contribution to `inlineLeaves`. -/
def inlineLeavesOne : SWidget → List SWidget
  | .noDef _ _ => []
  | .withDef wt ly dt dti vz ct rq ch =>
    if dt = some "group" then
      match ch with
      | some ws => inlineLeaves ws
      | none => []
    else [SWidget.withDef wt ly dt dti vz ct rq ch]

end

mutual

/-- The group-nested widgets in depth-first document order, written as
direct structural recursion (no accumulator): what
`process_widgets_acc isNested [] ws` collects. -/
def nestedDF : Bool → List SWidget → List SWidget
  | _, [] => []
  | isNested, w :: rest => nestedDFOne isNested w ++ nestedDF isNested rest

def nestedDFOne : Bool → SWidget → List SWidget
  | _, .noDef _ _ => []
  | isNested, .withDef wt ly dt dti vz ct rq ch =>
    match ch with
    | some ws =>
      if dt.getD "unknown" = "group" then nestedDF true ws
      else if isNested then [SWidget.withDef wt ly dt dti vz ct rq (some ws)]
      else []
    | none =>
      if isNested then [SWidget.withDef wt ly dt dti vz ct rq none]
      else []

end

/-! ### Panel builder

A Grafana panel, with the keys the conversion can set.  Key names follow
the source dictionaries (`id`, `title`, `gridPos`, `type`, the datasource
pair, `content`/`mode` for text panels, `drawStyle`/`fillOpacity` from the
timeseries `viz` handling); keys a code path does not set are `none`.
Fixed literal option bags that never vary (legend/tooltip/reduceOptions
blocks, the dashboard's annotations block) are omitted from the model. -/
structure Panel where
  id : Nat
  title : String
  gridPos : GridPos
  ptype : String
  dsType : Option String
  dsUid : Option String
  content : Option String
  mode : Option String
  targets : List Target
  drawStyle : Option String
  fillOpacity : Option Nat
deriving DecidableEq, Repr

/-- Embeds `_convert_timeseries` (source lines 225–249). -/
def convert_timeseries (viz : Option String) (reqs : Option Requests) (p : Panel) : Panel :=
  let p := { p with ptype := "timeseries", dsType := some "prometheus",
                    dsUid := some "prometheus",
                    targets := convert_requests_to_targets (reqs.getD (.rlist [])) }
  match viz with
  | some "line" => { p with drawStyle := some "line" }
  | some "area" => { p with drawStyle := some "line", fillOpacity := some 25 }
  | some "bar" => { p with drawStyle := some "bars" }
  | _ => p

/-- Embeds `_convert_query_value` (source lines 251–272): a `stat` panel. -/
def convert_query_value (reqs : Option Requests) (p : Panel) : Panel :=
  { p with ptype := "stat", dsType := some "prometheus", dsUid := some "prometheus",
           targets := convert_requests_to_targets (reqs.getD (.rlist [])) }

/-- Embeds `_convert_toplist` (source lines 274–292): a `bargauge` panel. -/
def convert_toplist (reqs : Option Requests) (p : Panel) : Panel :=
  { p with ptype := "bargauge", dsType := some "prometheus", dsUid := some "prometheus",
           targets := convert_requests_to_targets (reqs.getD (.rlist [])) }

/-- Embeds `_convert_note` (source lines 294–300): a markdown `text` panel. -/
def convert_note (content : Option String) (p : Panel) : Panel :=
  { p with ptype := "text", content := some (content.getD ""), mode := some "markdown" }

/-- Embeds `_convert_heatmap` (source lines 302–311). -/
def convert_heatmap (reqs : Option Requests) (p : Panel) : Panel :=
  { p with ptype := "heatmap", dsType := some "prometheus", dsUid := some "prometheus",
           targets := convert_requests_to_targets (reqs.getD (.rlist [])) }

/-- Embeds `_convert_hostmap` (source lines 313–322): a `table` panel. -/
def convert_hostmap (reqs : Option Requests) (p : Panel) : Panel :=
  { p with ptype := "table", dsType := some "prometheus", dsUid := some "prometheus",
           targets := convert_requests_to_targets (reqs.getD (.rlist [])) }

/-- Embeds `_convert_event_stream` (source lines 324–338): a `logs` panel with the
fixed catch-all Loki target. -/
def convert_event_stream (p : Panel) : Panel :=
  { p with ptype := "logs", dsType := some "loki", dsUid := some "loki",
           targets := [{ expr := String.mk [lbrace, rbrace], refId := "A",
                         instant := none, legendFormat := none }] }

/-- Embeds `DatadogToGrafanaConverter._convert_widget_to_panel` (source lines
140–187).  A widget without a definition converts to nothing and leaves the
panel-id counter and the grid cursor untouched; otherwise the base panel
(sequential id, `widget.get('title', 'Untitled Panel')`, next grid
position) is completed by the per-kind rule, unrecognized kinds falling
back to a text placeholder naming the kind. -/
def convert_widget_to_panel (pid : Nat) (st : GridState) (w : SWidget) :
    Option Panel × Nat × GridState :=
  match w with
  | .noDef _ _ => (none, pid, st)
  | .withDef wt _ dt _ vz ct rq _ =>
    let r := get_next_grid_position st w
    let base : Panel :=
      { id := pid, title := wt.getD "Untitled Panel", gridPos := r.1, ptype := "",
        dsType := none, dsUid := none, content := none, mode := none,
        targets := [], drawStyle := none, fillOpacity := none }
    let t := dt.getD "unknown"
    let panel :=
      if t = "timeseries" then convert_timeseries vz rq base
      else if t = "query_value" then convert_query_value rq base
      else if t = "toplist" then convert_toplist rq base
      else if t = "note" then convert_note ct base
      else if t = "heatmap" then convert_heatmap rq base
      else if t = "hostmap" then convert_hostmap rq base
      else if t = "event_stream" then convert_event_stream base
      else { base with ptype := "text",
                       content := some ("Unsupported Datadog widget type: " ++ t),
                       mode := some "markdown" }
    (some panel, pid + 1, r.2)

/-- The per-kind conversion table's keys: every other kind falls back to
the placeholder text panel. -/
def supportedKinds : List String :=
  ["timeseries", "query_value", "toplist", "note", "heatmap", "hostmap", "event_stream"]

/-- Whether the widget carries a `definition` key. -/
def hasDefinition : SWidget → Bool
  | .noDef _ _ => false
  | .withDef _ _ _ _ _ _ _ _ => true

/-! ### Dashboard assembler -/

/-- A Datadog template variable (keys `name`, `prefix`, `default`,
`values`; the latter three named `pfx`, `dflt`, `values` here). -/
structure TVar where
  name : Option String
  pfx : Option String
  dflt : Option String
  values : Option (List String)
deriving DecidableEq, Repr

/-- A converted Grafana template variable (the varying keys of the
dictionary built by `_convert_template_variables`, source lines 95–124). -/
structure GVar where
  name : String
  vtype : String
  query : String
  current : Option String
  options : List String
deriving DecidableEq, Repr

/-- One iteration of `_convert_template_variables`. -/
def convert_template_variable (v : TVar) : GVar :=
  { name := v.name.getD ""
    vtype := "custom"
    query := v.pfx.getD ""
    current := v.dflt
    options := v.values.getD [] }

/-- The converter's input: the fields of the `DatadogDashboard` object the
conversion reads. -/
structure DDashboard where
  title : String
  widgets : List SWidget
  nested_widgets : List SWidget
  template_variables : List TVar

/-- The Grafana dashboard document (its varying fields plus the fixed
scalar literals; the constant annotations block is omitted). -/
structure GDashboard where
  uid : String
  title : String
  tags : List String
  timezone : String
  schemaVersion : Nat
  version : Nat
  refresh : String
  timeFrom : String
  timeTo : String
  templating : List GVar
  panels : List Panel
deriving DecidableEq, Repr

/-- The widget loop of `convert` (source lines 72–75), threading the
panel-id counter and grid cursor. -/
def convert_panels : Nat → GridState → List SWidget → List Panel
  | _, _, [] => []
  | pid, st, w :: rest =>
    let r := convert_widget_to_panel pid st w
    r.1.toList ++ convert_panels r.2.1 r.2.2 rest

/-- Embeds `DatadogToGrafanaConverter.__init__` + `convert` (source lines 17–77).
The dashboard `uid` is `str(uuid.uuid4())[:8]` in the source — a fresh
random draw, not a function of the input — so the draw is passed here as
the explicit `uid` argument. -/
def convert (uid : String) (d : DDashboard) : GDashboard :=
  { uid := uid
    title := d.title
    tags := ["converted-from-datadog"]
    timezone := "browser"
    schemaVersion := 36
    version := 1
    refresh := "5s"
    timeFrom := "now-6h"
    timeTo := "now"
    templating := d.template_variables.map convert_template_variable
    panels := convert_panels 1 GridState.init
      (flatten_widgets d.widgets d.nested_widgets) }

/-! ### Concrete inputs used by counterexamples and witnesses -/

/-- A leaf widget titled `A` inside the demo group. -/
def demoLeafA : SWidget :=
  .withDef (some "A") none (some "timeseries") none none none none none

/-- A top-level leaf widget titled `B`, placed after the demo group. -/
def demoLeafB : SWidget :=
  .withDef (some "B") none (some "note") none none none none none

/-- A group widget containing `demoLeafA`. -/
def demoGroup : SWidget :=
  .withDef (some "G") none (some "group") none none none none (some [demoLeafA])

/-- The widget tree `[group [A], B]`. -/
def demoTree : List SWidget := [demoGroup, demoLeafB]

/-- A request whose `queries` array has two entries and no legacy query. -/
def demoQLSpec : RequestSpec :=
  { q := none, query := none
    queries := some [{ query := some "a:b" }, { query := some "c:d" }]
    display_name := none }

/-- A minimal dashboard input. -/
def demoDash : DDashboard :=
  { title := "T", widgets := [], nested_widgets := [], template_variables := [] }

/-- A widget whose definition carries a title but whose widget level does
not — the input of the repository's own test `test_title_from_definition`. -/
def demoDefTitleWidget : SWidget :=
  .withDef none none (some "timeseries") (some "Definition Title") none none
    (some (.rlist [])) none

/-- A primary-kind widget with no layout hint. -/
def demoPrimaryWidget : SWidget :=
  .withDef none none (some "timeseries") none none none none none

/-- A widget whose layout carries a width but no height. -/
def demoHalfHintWidget : SWidget :=
  .withDef none (some { width := some 50, height := none }) (some "note")
    none none none none none

/-- A widget of a kind outside the conversion table. -/
def demoUnsupportedWidget : SWidget :=
  .withDef none none (some "alert_graph") none none none none none

/-- The same widget with its `layout` key removed (used to compare a
half-specified hint with no hint at all). -/
def eraseLayout : SWidget → SWidget
  | .noDef t _ => .noDef t none
  | .withDef t _ dt dti vz ct rq ch => .withDef t none dt dti vz ct rq ch

end Graang

/-! Concrete checks that the model computes. -/

example :
    Graang.convert_datadog_query_to_prometheus "avg:system.cpu.user\x7bhost:web-server\x7d"
      = "avg_over_time(system.cpu.user\x7b\x7bhost:web-server\x7d\x7d)[5m]" := by decide

example :
    Graang.convert_datadog_query_to_prometheus ")" = ")[5m]" := by decide

example :
    Graang.convert_datadog_query_to_prometheus "min:system.memory.used\x7brole:db\x7d[10m]"
      = "min_over_time(system.memory.used\x7b\x7brole:db\x7d\x7d[10m])" := by decide

namespace Graang

/-! ## Helper lemmas -/

lemma count_replicate_close (n : Nat) :
    (List.replicate n ')').count ')' = n := by
  induction n with
  | zero => rfl
  | succ k ih => simp [List.replicate_succ, ih]

lemma count_replicate_close_open (n : Nat) :
    (List.replicate n ')').count '(' = 0 := by
  induction n with
  | zero => rfl
  | succ k ih => simpa [List.replicate_succ] using ih

lemma balanceParens_count_le (q : List Char) :
    (balanceParens q).count '(' ≤ (balanceParens q).count ')' := by
  by_cases h : q.count '(' > q.count ')'
  · simp only [balanceParens, if_pos h, List.count_append, count_replicate_close,
      count_replicate_close_open]
    omega
  · simp only [balanceParens, if_neg h]
    omega

lemma ensureRange_count (q : List Char) (c : Char)
    (hc : ("[5m]".data.count c) = 0) :
    (ensureRange q).count c = q.count c := by
  unfold ensureRange
  split_ifs
  · rfl
  · simp [List.count_append, hc]

/-! ## C4 -/

/-- C4 (counterexample): the translator's output is not always
parenthesis-balanced — on the over-closed input `)` the output `)[5m]` has
zero `(` but one `)`. -/
theorem translator_unbalanced_on_overclosed_input :
    ¬ ((convert_datadog_query_to_prometheus ")").data.count '(' =
        (convert_datadog_query_to_prometheus ")").data.count ')') := by decide

/-- C4 (amended): for every input string the translator's output has at
most as many `(` as `)` characters — the balancing step appends the
deficit of `)` when opens exceed closes and otherwise leaves the string
alone, so equality holds exactly when the rewritten string was not
over-closed. -/
theorem translator_opens_le_closes (q : String) :
    (convert_datadog_query_to_prometheus q).data.count '(' ≤
      (convert_datadog_query_to_prometheus q).data.count ')' := by
  have hstep : ∀ r : List Char,
      (ensureRange (balanceParens r)).count '(' ≤
        (ensureRange (balanceParens r)).count ')' := by
    intro r
    rw [ensureRange_count _ '(' (by decide), ensureRange_count _ ')' (by decide)]
    exact balanceParens_count_le _
  simpa [convert_datadog_query_to_prometheus, translateQueryChars] using
    hstep (reSubBraces (reSubLit "max:".data "max_over_time(".data
      (reSubLit "min:".data "min_over_time(".data
        (reSubLit "sum:".data "sum(".data
          (reSubLit "avg:".data "avg_over_time(".data q.data)))))

/-! ## C8 -/

/-- C8: the translator maps `avg:system.cpu.user{host:web-server}` to
exactly `avg_over_time(system.cpu.user{{host:web-server}})[5m]`. -/
theorem query_translation_example :
    convert_datadog_query_to_prometheus "avg:system.cpu.user\x7bhost:web-server\x7d"
      = "avg_over_time(system.cpu.user\x7b\x7bhost:web-server\x7d\x7d)[5m]" := by decide

/-! ## Grid layout lemmas -/

lemma hintSize_w_lower (wp hp : Int) : 1 ≤ (hintSize wp hp).1 :=
  le_max_left _ _

lemma hintSize_w_upper (wp hp : Int) : (hintSize wp hp).1 ≤ 24 :=
  max_le (by norm_num) (min_le_left _ _)

lemma hintSize_h_lower (wp hp : Int) : 1 ≤ (hintSize wp hp).2 :=
  le_trans (by norm_num) (le_max_left _ _)

lemma convSize_bounds (w : SWidget) :
    1 ≤ (convSize w).1 ∧ (convSize w).1 ≤ 24 ∧ 1 ≤ (convSize w).2 := by
  unfold convSize
  cases h : layoutHintOf w with
  | none => norm_num
  | some pr =>
    obtain ⟨wp, hp⟩ := pr
    exact ⟨hintSize_w_lower wp hp, hintSize_w_upper wp hp, hintSize_h_lower wp hp⟩

lemma calcSize_bounds (cx : Int) (w : SWidget) :
    1 ≤ (calcSize cx w).1 ∧ (calcSize cx w).1 ≤ 24 ∧ 1 ≤ (calcSize cx w).2 := by
  unfold calcSize
  cases h : layoutHintOf w with
  | none => split_ifs <;> norm_num
  | some pr =>
    obtain ⟨wp, hp⟩ := pr
    exact ⟨hintSize_w_lower wp hp, hintSize_w_upper wp hp, hintSize_h_lower wp hp⟩

lemma packAdvance_ok (st : GridState) (size : Int × Int)
    (hw1 : 1 ≤ size.1) (hw2 : size.1 ≤ 24) (hh : 1 ≤ size.2)
    (hx : 0 ≤ st.x) (hy : 0 ≤ st.y) (hr : 0 ≤ st.rowH) :
    gridPosOk (packAdvance st size).1 = true ∧
      0 ≤ (packAdvance st size).2.x ∧ 0 ≤ (packAdvance st size).2.y ∧
      0 ≤ (packAdvance st size).2.rowH := by
  obtain ⟨width, height⟩ := size
  simp only [Prod.fst, Prod.snd] at hw1 hw2 hh
  by_cases hwrap : st.x + width > 24
  · simp only [packAdvance, gridPosOk, if_pos hwrap]
    refine ⟨?_, by omega, by omega, le_max_of_le_right (by omega)⟩
    simp only [decide_eq_true_eq]
    refine ⟨by omega, by omega, by omega, by omega, by omega⟩
  · simp only [packAdvance, gridPosOk, if_neg hwrap]
    refine ⟨?_, by omega, by omega, le_max_of_le_left hr⟩
    simp only [decide_eq_true_eq]
    refine ⟨by omega, by omega, by omega, by omega, by omega⟩

lemma runConv_all_ok :
    ∀ (ws : List SWidget) (st : GridState),
      0 ≤ st.x → 0 ≤ st.y → 0 ≤ st.rowH →
      (runConvPositions st ws).all gridPosOk = true := by
  intro ws
  induction ws with
  | nil => intro st _ _ _; rfl
  | cons w rest ih =>
    intro st hx hy hr
    have hb := convSize_bounds w
    have hp := packAdvance_ok st (convSize w) hb.1 hb.2.1 hb.2.2 hx hy hr
    rw [show runConvPositions st (w :: rest)
          = (get_next_grid_position st w).1
            :: runConvPositions (get_next_grid_position st w).2 rest from rfl,
        List.all_cons, Bool.and_eq_true]
    exact ⟨hp.1, ih _ hp.2.1 hp.2.2.1 hp.2.2.2⟩

lemma runCalc_all_ok :
    ∀ (ws : List SWidget) (st : GridState),
      0 ≤ st.x → 0 ≤ st.y → 0 ≤ st.rowH →
      (runCalcPositions st ws).all gridPosOk = true := by
  intro ws
  induction ws with
  | nil => intro st _ _ _; rfl
  | cons w rest ih =>
    intro st hx hy hr
    have hb := calcSize_bounds st.x w
    have hp := packAdvance_ok st (calcSize st.x w) hb.1 hb.2.1 hb.2.2 hx hy hr
    rw [show runCalcPositions st (w :: rest)
          = (GridLayoutCalculator.get_next_grid_position st w).1
            :: runCalcPositions (GridLayoutCalculator.get_next_grid_position st w).2 rest
          from rfl,
        List.all_cons, Bool.and_eq_true]
    exact ⟨hp.1, ih _ hp.2.1 hp.2.2.1 hp.2.2.2⟩

/-! ## C5 -/

/-- C5: starting from the freshly-initialized cursor `{0, 0, 0}`, for every
sequence of widgets, every position returned by either positioner (the
converter's and `GridLayoutCalculator`'s) satisfies
`x ≥ 0 ∧ y ≥ 0 ∧ w ≥ 1 ∧ h ≥ 1 ∧ x + w ≤ 24`. -/
theorem grid_positions_satisfy_invariant (ws : List SWidget) :
    ((runConvPositions GridState.init ws).all gridPosOk = true) ∧
    ((runCalcPositions GridState.init ws).all gridPosOk = true) :=
  ⟨runConv_all_ok ws GridState.init le_rfl le_rfl le_rfl,
   runCalc_all_ok ws GridState.init le_rfl le_rfl le_rfl⟩

/-! ## C6 -/

/-- C6: `GridLayoutCalculator` — the grid positioner the packaged converter
holds as its `grid_layout` — places a primary-kind widget without a layout
hint at `{x: 0, y: 0, w: 24, h: 8}` on a fresh packer, and gives it width
12 whenever the cursor is not at `x == 0`. -/
theorem primary_kind_full_width_rule (w : SWidget) (st : GridState)
    (hHint : layoutHintOf w = none)
    (hKind : wtypeOf w ∈ primaryKinds) :
    (GridLayoutCalculator.get_next_grid_position GridState.init w).1 =
      ⟨0, 0, 24, 8⟩ ∧
    (st.x ≠ 0 → ((GridLayoutCalculator.get_next_grid_position st w).1).w = 12) := by
  constructor
  · simp [GridLayoutCalculator.get_next_grid_position, calcSize, hHint, hKind,
      packAdvance, GridState.init]
  · intro hx
    simp only [GridLayoutCalculator.get_next_grid_position, calcSize, hHint, hKind,
      if_true, packAdvance, if_neg hx]

/-- Witness for C6 at a concrete primary-kind widget and the cursor
`{x: 5, y: 0, rowHeight: 0}`. -/
theorem primary_kind_full_width_rule_witness :
    (layoutHintOf demoPrimaryWidget = none ∧
      wtypeOf demoPrimaryWidget ∈ primaryKinds) ∧
    ((GridLayoutCalculator.get_next_grid_position GridState.init demoPrimaryWidget).1 =
        ⟨0, 0, 24, 8⟩ ∧
      ((⟨5, 0, 0⟩ : GridState).x ≠ 0 →
        ((GridLayoutCalculator.get_next_grid_position ⟨5, 0, 0⟩ demoPrimaryWidget).1).w = 12)) :=
  ⟨⟨by decide, by decide⟩,
   primary_kind_full_width_rule demoPrimaryWidget ⟨5, 0, 0⟩ (by decide) (by decide)⟩

/-! ## C10 -/

/-- C10: a layout hint carrying only one of `width`/`height` is ignored
entirely by both positioners — the widget is placed exactly as if it had no
layout at all. -/
theorem half_layout_hint_ignored (st : GridState) (w : SWidget) (l : LayoutSpec)
    (hl : layoutOf w = some l)
    (hHalf : l.width.isSome ≠ l.height.isSome) :
    get_next_grid_position st w = get_next_grid_position st (eraseLayout w) ∧
    GridLayoutCalculator.get_next_grid_position st w =
      GridLayoutCalculator.get_next_grid_position st (eraseLayout w) := by
  have h1 : layoutHintOf w = none := by
    unfold layoutHintOf
    rw [hl]
    obtain ⟨ow, oh⟩ := l
    cases ow <;> cases oh <;> simp_all
  have h2 : layoutHintOf (eraseLayout w) = none := by
    cases w <;> rfl
  have h3 : wtypeOf (eraseLayout w) = wtypeOf w := by
    cases w <;> rfl
  constructor
  · simp [get_next_grid_position, convSize, h1, h2]
  · simp [GridLayoutCalculator.get_next_grid_position, calcSize, h1, h2, h3]

/-! ## C1 -/

mutual

theorem process_widgets_acc_eq (b : Bool) (acc : List SWidget) :
    (ws : List SWidget) →
      process_widgets_acc b acc ws = acc ++ nestedDF b ws
  | [] => by
    rw [show process_widgets_acc b acc [] = acc from rfl,
        show nestedDF b [] = [] from rfl, List.append_nil]
  | w :: rest => by
    rw [show process_widgets_acc b acc (w :: rest)
          = process_widgets_acc b (process_one_acc b acc w) rest from rfl,
        process_widgets_acc_eq b (process_one_acc b acc w) rest,
        process_one_acc_eq b acc w,
        show nestedDF b (w :: rest) = nestedDFOne b w ++ nestedDF b rest from rfl,
        List.append_assoc]

theorem process_one_acc_eq (b : Bool) (acc : List SWidget) :
    (w : SWidget) →
      process_one_acc b acc w = acc ++ nestedDFOne b w
  | .noDef t l => by
    rw [show process_one_acc b acc (.noDef t l) = acc from rfl,
        show nestedDFOne b (.noDef t l) = [] from rfl, List.append_nil]
  | .withDef wt ly dt dti vz ct rq none => by
    simp only [process_one_acc, nestedDFOne]
    split_ifs <;> simp
  | .withDef wt ly dt dti vz ct rq (some ws) =>
    if h : dt.getD "unknown" = "group" then by
      simp only [process_one_acc, nestedDFOne, if_pos h]
      exact process_widgets_acc_eq true acc ws
    else by
      simp only [process_one_acc, nestedDFOne, if_neg h]
      split_ifs <;> simp

end

/-- C1 (counterexample): on the tree `[group [A], B]` the code's flattening
returns `[B, A]` — the group's descendant comes after the top-level leaf
that follows the group — while leaves in document order with the group
inlined at its position would be `[A, B]`. -/
theorem flatten_differs_from_inline_document_order :
    flattenPipeline demoTree ≠ inlineLeaves demoTree := by
  intro h
  have h' := congrArg (List.map wtitleOf) h
  rw [show List.map wtitleOf (flattenPipeline demoTree)
        = [some "B", some "A"] from rfl,
      show List.map wtitleOf (inlineLeaves demoTree)
        = [some "A", some "B"] from rfl] at h'
  exact absurd h' (by decide)

/-- C1 (amended): the conversion's flattening returns exactly the
top-level widgets whose definition is of non-group type, in document
order, followed by all widgets nested (at any depth) inside groups, in
depth-first document order with nested groups inlined rather than
re-wrapped; a group's descendants therefore appear after all top-level
leaves, not at the group's position. -/
theorem flatten_top_leaves_then_nested_depth_first (ws : List SWidget) :
    flattenPipeline ws = ws.filter isTopLevelLeaf ++ nestedDF false ws := by
  unfold flattenPipeline flatten_widgets
  rw [process_widgets_acc_eq false [] ws, List.nil_append]

/-! ## C2 -/

/-- C2 (counterexample): a list-shaped `requests` whose single element
carries a `queries` array with two entries normalizes to one target, not
two — `_build_target` reads only the first entry of the array. -/
theorem queryList_yields_single_target :
    (convert_requests_to_targets (.rlist [some demoQLSpec])).length = 1 ∧
    (demoQLSpec.queries.getD []).length = 2 := by decide

/-- C2 (amended): when a list-shaped `requests` element carries a
`queries` array with at least one entry (and no legacy `q`/`query` key),
normalization yields exactly one target from that element, built from the
array's first entry alone — provided that entry has a non-empty query
text — with the positional reference id `A{i}`; the later entries of the
array contribute nothing. -/
theorem queryList_first_entry_target (rs : List (Option RequestSpec)) (i : Nat)
    (spec : RequestSpec) (qo : QueryObj) (qs : List QueryObj) (s : String)
    (hi : rs[i]? = some (some spec))
    (hq : spec.q = none) (hquery : spec.query = none)
    (hqs : spec.queries = some (qo :: qs))
    (hqo : qo.query = some s) (hs : ¬ s = "") :
    build_target (some spec) ("A" ++ toString i) =
      some { expr := convert_datadog_query_to_prometheus s
             refId := "A" ++ toString i
             instant := some false
             legendFormat := some (spec.display_name.getD "") } ∧
    ({ expr := convert_datadog_query_to_prometheus s
       refId := "A" ++ toString i
       instant := some false
       legendFormat := some (spec.display_name.getD "") } : Target) ∈
      convert_requests_to_targets (.rlist rs) := by
  have hbt : build_target (some spec) ("A" ++ toString i) =
      some { expr := convert_datadog_query_to_prometheus s
             refId := "A" ++ toString i
             instant := some false
             legendFormat := some (spec.display_name.getD "") } := by
    simp [build_target, hq, hquery, hqs, hqo, hs]
  refine ⟨hbt, ?_⟩
  unfold convert_requests_to_targets
  rw [List.mem_flatten]
  refine ⟨(build_target (some spec) ("A" ++ toString i)).toList, ?_, ?_⟩
  · rw [List.mem_map]
    exact ⟨(i, some spec), by rw [List.mk_mem_enum_iff_getElem?]; exact hi, rfl⟩
  · rw [hbt]
    simp

/-- Witness for C2 (amended) at the two-entry demo request in a
one-element request list. -/
theorem queryList_first_entry_target_witness :
    (([some demoQLSpec] : List (Option RequestSpec))[0]? = some (some demoQLSpec) ∧
      demoQLSpec.q = none ∧ demoQLSpec.query = none ∧
      demoQLSpec.queries = some (⟨some "a:b"⟩ :: [⟨some "c:d"⟩]) ∧
      (⟨some "a:b"⟩ : QueryObj).query = some "a:b" ∧ ¬ ("a:b" = "")) ∧
    (build_target (some demoQLSpec) ("A" ++ toString 0) =
      some { expr := convert_datadog_query_to_prometheus "a:b"
             refId := "A" ++ toString 0
             instant := some false
             legendFormat := some (demoQLSpec.display_name.getD "") } ∧
    ({ expr := convert_datadog_query_to_prometheus "a:b"
       refId := "A" ++ toString 0
       instant := some false
       legendFormat := some (demoQLSpec.display_name.getD "") } : Target) ∈
      convert_requests_to_targets (.rlist [some demoQLSpec])) :=
  ⟨⟨by decide, by decide, by decide, by decide, by decide, by decide⟩,
   queryList_first_entry_target [some demoQLSpec] 0 demoQLSpec
     ⟨some "a:b"⟩ [⟨some "c:d"⟩] "a:b"
     (by decide) (by decide) (by decide) (by decide) (by decide) (by decide)⟩

/-! ## C3 -/

/-- C3 (counterexample): the dashboard `uid` is a fresh random draw
(`str(uuid.uuid4())[:8]`), so two conversions of the same input document
with different draws produce different output documents. -/
theorem convert_uid_depends_on_random_draw :
    convert "aaaaaaaa" demoDash ≠ convert "bbbbbbbb" demoDash := by
  intro h
  exact absurd (congrArg GDashboard.uid h) (by decide)

/-- C3 (amended): apart from the randomly drawn `uid`, the conversion is a
deterministic function of its input — erasing the `uid` field, two
conversions of equal input documents under any two draws are equal. -/
theorem convert_deterministic_modulo_uid (u1 u2 : String) (d : DDashboard) :
    { convert u1 d with uid := "" } = { convert u2 d with uid := "" } := rfl

/-! ## C7 -/

/-- C7 (code evaluated at the failing input): on the repository's own test
input — a widget whose definition carries the title `Definition Title` and
whose widget level carries none — the converter produces the panel title
`Untitled Panel`: it reads only the widget-level `title`, contradicting the
repo's `test_title_from_definition` and the documented priority chain. -/
theorem panel_title_ignores_definition_title :
    ((convert_widget_to_panel 1 GridState.init demoDefTitleWidget).1.map Panel.title)
      = some "Untitled Panel" := by decide

/-! ## C9 -/

lemma convert_panels_length :
    ∀ (ws : List SWidget) (pid : Nat) (st : GridState),
      (convert_panels pid st ws).length = (ws.filter hasDefinition).length := by
  intro ws
  induction ws with
  | nil => intro pid st; rfl
  | cons w rest ih =>
    intro pid st
    cases w with
    | noDef t l =>
      rw [show convert_panels pid st (.noDef t l :: rest)
            = convert_panels pid st rest from rfl,
          show (SWidget.noDef t l :: rest).filter hasDefinition
            = rest.filter hasDefinition from rfl]
      exact ih pid st
    | withDef wt ly dt dti vz ct rq ch =>
      simp only [convert_panels, convert_widget_to_panel, Option.toList_some,
        List.singleton_append, List.length_cons]
      rw [show (SWidget.withDef wt ly dt dti vz ct rq ch :: rest).filter hasDefinition
            = SWidget.withDef wt ly dt dti vz ct rq ch :: rest.filter hasDefinition
          from rfl]
      simp [ih]

/-- C9: a leaf widget carrying a definition whose kind is outside the
conversion table converts — without failing — to a markdown `text`
placeholder panel whose content names the unrecognized kind; and the
conversion loop still converts every definition-carrying widget of the
document (one panel per such widget). -/
theorem unsupported_kind_placeholder_panel (pid : Nat) (st : GridState)
    (wt : Option String) (ly : Option LayoutSpec) (dt dti vz ct : Option String)
    (rq : Option Requests) (ch : Option (List SWidget))
    (h : dt.getD "unknown" ∉ supportedKinds) :
    (∃ p : Panel,
      (convert_widget_to_panel pid st (.withDef wt ly dt dti vz ct rq ch)).1 = some p ∧
      p.ptype = "text" ∧
      p.content = some ("Unsupported Datadog widget type: " ++ dt.getD "unknown") ∧
      p.mode = some "markdown") ∧
    (∀ ws : List SWidget,
      (convert_panels pid st ws).length = (ws.filter hasDefinition).length) := by
  constructor
  · simp only [supportedKinds, List.mem_cons, List.mem_singleton, not_or] at h
    obtain ⟨h1, h2, h3, h4, h5, h6, h7, -⟩ := h
    simp only [convert_widget_to_panel, if_neg h1, if_neg h2, if_neg h3, if_neg h4,
      if_neg h5, if_neg h6, if_neg h7]
    exact ⟨_, rfl, rfl, rfl, rfl⟩
  · intro ws
    exact convert_panels_length ws pid st

/-- Witness for C9 at the kind `alert_graph`. -/
theorem unsupported_kind_placeholder_panel_witness :
    ((some "alert_graph").getD "unknown" ∉ supportedKinds) ∧
    ((∃ p : Panel,
      (convert_widget_to_panel 1 GridState.init
          (.withDef none none (some "alert_graph") none none none none none)).1 = some p ∧
      p.ptype = "text" ∧
      p.content = some ("Unsupported Datadog widget type: " ++
        (some "alert_graph").getD "unknown") ∧
      p.mode = some "markdown") ∧
    (∀ ws : List SWidget,
      (convert_panels 1 GridState.init ws).length = (ws.filter hasDefinition).length)) :=
  ⟨by decide,
   unsupported_kind_placeholder_panel 1 GridState.init none none (some "alert_graph")
     none none none none none (by decide)⟩

/-- Witness for C10 at a width-only hint and the cursor `{3, 1, 2}`. -/
theorem half_layout_hint_ignored_witness :
    (layoutOf demoHalfHintWidget = some ⟨some 50, none⟩ ∧
      ((some (50 : Int)).isSome ≠ (none : Option Int).isSome)) ∧
    (get_next_grid_position ⟨3, 1, 2⟩ demoHalfHintWidget =
        get_next_grid_position ⟨3, 1, 2⟩ (eraseLayout demoHalfHintWidget) ∧
      GridLayoutCalculator.get_next_grid_position ⟨3, 1, 2⟩ demoHalfHintWidget =
        GridLayoutCalculator.get_next_grid_position ⟨3, 1, 2⟩ (eraseLayout demoHalfHintWidget)) :=
  ⟨⟨by decide, by decide⟩,
   half_layout_hint_ignored ⟨3, 1, 2⟩ demoHalfHintWidget ⟨some 50, none⟩
     (by decide) (by decide)⟩

end Graang
